import Mathlib

/-!
# jira-tui interaction core — a shallow embedding

A Lean model of the reactive state machine in `internal/tui` of the
jira-tui repository: the quick-filter engine (`filter.go`), the tab
registry (`tab.go`), the overlay subsystem (`overlay.go`), the detail
view (`detail.go`) and the root application model with its message loop
(`app.go`).  Pure Go functions become Lean functions; the bubbletea
`Update` loop becomes an explicit reducer `App.update : App → Msg →
App × List AppCmd`, with the commands a handler would dispatch returned
as data.

Modelling conventions, fixed once here:

* Go strings are `List Char` (`Str`); `strings.ToLower` is modelled by
  ASCII lowercasing (`Char.toLower`), `strings.Contains s sub` by
  decidable infix containment, `strings.TrimSpace` by trimming ASCII
  whitespace — each uniform renamings of the same operations.
* ADF rich-text documents (issue descriptions, comment bodies) are
  modelled by their extracted plain text, so `extractADFText` and
  `makeADFDocument` are the identity.
* The bubbles `textinput`/`textarea` widgets are modelled by their value
  buffer (typing appends, backspace deletes the last character); the
  bubbles `table` by its row list and cursor; viewports, spinners,
  styling and layout are rendering-only and not modelled.
* The Go view stack appends at the end and treats the last element as
  the top; the model stores the top first (`push` = cons, `pop` = tail),
  the standard stack presentation of the same data.
* `tea.Cmd` values are reified as `AppCmd` data; `nil` commands become
  the empty list.  Clipboard and browser side effects are modelled on
  their success path.
-/

namespace JiraTui

/-- Go strings, modelled as character lists. -/
abbrev Str := List Char

/-- Coerce a Lean string literal to the `Str` model. -/
def str (s : String) : Str := s.data

/-- `strings.ToLower`, modelled as ASCII lowercasing applied per character. -/
def lowerStr (s : Str) : Str := s.map Char.toLower

/-- `strings.Contains s sub`: `sub` occurs in `s` as a contiguous substring.
The empty substring is contained in everything, exactly as in Go. -/
def goContains (s sub : Str) : Bool := decide (sub <:+: s)

/-- ASCII whitespace recognised by the `strings.TrimSpace` model. -/
def isSpaceChar (c : Char) : Bool := c = ' ' || c = '\t' || c = '\n' || c = '\r'

/-- `strings.TrimSpace`: drop whitespace from both ends. -/
def trimSpace (s : Str) : Str :=
  ((s.dropWhile isSpaceChar).reverse.dropWhile isSpaceChar).reverse

/-- The spec's notion "`s` contains `q` as a case-insensitive substring". -/
def ContainsCI (s q : Str) : Prop := lowerStr q <:+: lowerStr s

instance (s q : Str) : Decidable (ContainsCI s q) := by
  unfold ContainsCI; infer_instance

/-! ## Jira data model (`internal/jira/types.go`, `client.go`) -/

/-- `jira.StatusCategory`. -/
structure StatusCategory where
  id : Int
  key : Str
  name : Str
deriving DecidableEq

/-- `jira.Status`. -/
structure Status where
  name : Str
  id : Str
  statusCategory : Option StatusCategory
deriving DecidableEq

/-- `jira.User`. -/
structure User where
  accountID : Str
  displayName : Str
  email : Str
  active : Bool
deriving DecidableEq

/-- `jira.Named` — a generic id/name pair (priority, issue type, project). -/
structure Named where
  id : Str
  name : Str
deriving DecidableEq

/-- `jira.IssueFields`.  The ADF description is modelled by its plain
text; subtask/link/parent references are not needed by any claim and the
related-issue picker is modelled over the fetched children list. -/
structure IssueFields where
  summary : Str
  description : Str
  status : Option Status
  assignee : Option User
  reporter : Option User
  priority : Option Named
  issuetype : Option Named
  project : Option Named
  created : Str
  updated : Str
  dueDate : Str
  labels : List Str
deriving DecidableEq

/-- `jira.Issue`. -/
structure Issue where
  id : Str
  key : Str
  fields : IssueFields
deriving DecidableEq

/-- An issue with every field empty: the `getD` default, and the stub
used when a view is pushed knowing only the key. -/
def blankIssue : Issue :=
  { id := [], key := [],
    fields := { summary := [], description := [], status := none,
                assignee := none, reporter := none, priority := none,
                issuetype := none, project := none, created := [],
                updated := [], dueDate := [], labels := [] } }

/-- `jira.Transition` — a workflow transition with its target status. -/
structure Transition where
  id : Str
  name : Str
  toStatus : Option Status
deriving DecidableEq

/-- `jira.Priority`. -/
structure Priority where
  id : Str
  name : Str
deriving DecidableEq

/-- `jira.Comment`, its ADF body modelled by plain text. -/
structure Comment where
  id : Str
  author : Option User
  body : Str
  created : Str
  updated : Str
deriving DecidableEq

/-- `config.CachedUser`. -/
structure CachedUser where
  accountID : Str
  displayName : Str
  email : Str
deriving DecidableEq

/-- `extractADFText` on the plain-text model of ADF documents. -/
def extractADFText (doc : Str) : Str := doc

/-- `makeADFDocument` on the plain-text model of ADF documents. -/
def makeADFDocument (text : Str) : Str := text

/-! ## Column rendering (`tab.go`) -/

/-- `formatDate`: trim a Jira datetime to its date portion. -/
def formatDate (dt : Str) : Str := if 10 ≤ dt.length then dt.take 10 else dt

/-- `fieldValue`: the display string of one column of an issue.  Unknown
columns and nil pointers render as the empty string. -/
def fieldValue (issue : Issue) (column : Str) : Str :=
  if column = str "key" then issue.key
  else if column = str "summary" then issue.fields.summary
  else if column = str "status" then
    match issue.fields.status with
    | some s => s.name
    | none => []
  else if column = str "priority" then
    match issue.fields.priority with
    | some p => p.name
    | none => []
  else if column = str "assignee" then
    match issue.fields.assignee with
    | some u => u.displayName
    | none => []
  else if column = str "reporter" then
    match issue.fields.reporter with
    | some u => u.displayName
    | none => []
  else if column = str "type" then
    match issue.fields.issuetype with
    | some t => t.name
    | none => []
  else if column = str "project" then
    match issue.fields.project with
    | some p => p.name
    | none => []
  else if column = str "created" then formatDate issue.fields.created
  else if column = str "updated" then formatDate issue.fields.updated
  else if column = str "duedate" ∨ column = str "due_date" ∨
          column = str "due date" ∨ column = str "due" then
    formatDate issue.fields.dueDate
  else []

/-- `priorityIcon`: the plain icon shown in a priority column. -/
def priorityIcon (name : Str) : Str :=
  if name = str "Not Prioritized" then []
  else if name = str "Blocked" ∨ name = str "Blocker" then str "⊘"
  else if name = str "Critical" ∨ name = str "Highest" then str "↑↑"
  else if name = str "High" then str "↑"
  else if name = str "Medium" then str "≡"
  else if name = str "Medium-Rare" then str "↓"
  else if name = str "Low" ∨ name = str "Lowest" then str "↓↓"
  else name

/-- One rendered table row. -/
abbrev Row := List Str

/-- `issuesToRows`: one row per issue, one cell per configured column;
priority cells show the icon. -/
def issuesToRows (issues : List Issue) (columns : List Str) : List Row :=
  issues.map fun issue =>
    columns.map fun col =>
      if col = str "priority" then
        match issue.fields.priority with
        | some p => priorityIcon p.name
        | none => fieldValue issue col
      else fieldValue issue col

/-! ## Quick filter engine (`filter.go`) -/

/-- The value buffer of a bubbles text input / textarea. -/
structure TextInput where
  value : Str
  focused : Bool
deriving DecidableEq

/-- Typing model of the bubbles text widgets: printable characters
append, backspace deletes the last character. -/
def TextInput.insert (ti : TextInput) (c : Char) : TextInput :=
  { ti with value := ti.value ++ [c] }

/-- Backspace on the text-widget model. -/
def TextInput.backspace (ti : TextInput) : TextInput :=
  { ti with value := ti.value.dropLast }

/-- `filterState`. -/
inductive FilterSt
  | inactive
  | focused
  | applied
deriving DecidableEq

/-- `filterIssues`: keep the issues where any visible column value
contains the query, case-insensitively, in the original order. -/
def filterIssues (issues : List Issue) (columns : List Str) (query : Str) :
    List Issue :=
  let q := lowerStr query
  issues.filter fun issue =>
    columns.any fun col => goContains (lowerStr (fieldValue issue col)) q

/-- `issueFilter`. -/
structure IssueFilter where
  state : FilterSt
  input : TextInput
  query : Str
  total : Nat
  matched : Nat
  filtered : List Issue
deriving DecidableEq

/-- `newIssueFilter`: an inactive filter with an empty input. -/
def newIssueFilter : IssueFilter :=
  { state := .inactive, input := { value := [], focused := false },
    query := [], total := 0, matched := 0, filtered := [] }

/-- `issueFilter.clear`: remove the filter entirely. -/
def IssueFilter.clear (_f : IssueFilter) : IssueFilter :=
  { state := .inactive, input := { value := [], focused := false },
    query := [], total := 0, matched := 0, filtered := [] }

/-- `issueFilter.activate`: show the bar and focus the input. -/
def IssueFilter.activate (f : IssueFilter) : IssueFilter :=
  { f with state := .focused, input := { f.input with focused := true } }

/-- `issueFilter.apply`: confirm the filter and blur the input; an
empty (trimmed) query clears instead. -/
def IssueFilter.apply (f : IssueFilter) (allIssues : List Issue)
    (columns : List Str) : IssueFilter :=
  let q := trimSpace f.input.value
  if q = [] then f.clear
  else
    let res := filterIssues allIssues columns q
    { f with query := q, state := .applied,
             input := { f.input with focused := false },
             filtered := res, total := allIssues.length,
             matched := res.length }

/-- `issueFilter.updateQuery`: live re-filter as the user types. -/
def IssueFilter.updateQuery (f : IssueFilter) (allIssues : List Issue)
    (columns : List Str) : IssueFilter :=
  let q := trimSpace f.input.value
  if q = [] then
    { f with query := q, filtered := allIssues,
             total := allIssues.length, matched := allIssues.length }
  else
    let res := filterIssues allIssues columns q
    { f with query := q, filtered := res,
             total := allIssues.length, matched := res.length }

/-- `issueFilter.isActive`. -/
def IssueFilter.isActive (f : IssueFilter) : Bool := f.state ≠ .inactive

/-- `issueFilter.isFocused`. -/
def IssueFilter.isFocused (f : IssueFilter) : Bool := f.state = .focused

/-- `issueFilter.visibleIssues`: the filtered set, or everything when no
filter is in force. -/
def IssueFilter.visibleIssues (f : IssueFilter) (allIssues : List Issue) :
    List Issue :=
  if f.state = .inactive ∨ f.query = [] then allIssues else f.filtered

/-! ## Key messages

`tea.KeyMsg` values are switched on through `msg.String()` in Go; the
model matches on the corresponding constructors (a printable character
`c` has string `[c]`, the named keys have their bubbletea names). -/

/-- The keys the handlers distinguish. -/
inductive KeyMsg
  | ch (c : Char)
  | esc
  | enter
  | ctrlC
  | ctrlS
  | up
  | down
  | ctrlP
  | ctrlN
  | del
  | backspace
  | home
  | endKey
deriving DecidableEq

/-- Text-widget update (`textinput.Model.Update` / `textarea` without
newlines): printable characters append, backspace deletes. -/
def TextInput.update (ti : TextInput) (k : KeyMsg) : TextInput :=
  match k with
  | .ch c => ti.insert c
  | .backspace => ti.backspace
  | _ => ti

/-- Textarea update (`textarea.Model.Update` with `InsertNewline` bound
to enter, as the description editor configures it). -/
def TextInput.updateArea (ti : TextInput) (k : KeyMsg) : TextInput :=
  match k with
  | .ch c => ti.insert c
  | .enter => ti.insert '\n'
  | .backspace => ti.backspace
  | _ => ti

/-! ## Table model (`bubbles/table`) -/

/-- The bubbles table, reduced to its rows and cursor. -/
structure TableModel where
  rows : List Row
  cursor : Nat
deriving DecidableEq

/-- `table.SetRows`: replace the rows, cursor untouched. -/
def TableModel.setRows (t : TableModel) (rs : List Row) : TableModel :=
  { t with rows := rs }

/-- `table.GotoTop`. -/
def TableModel.gotoTop (t : TableModel) : TableModel := { t with cursor := 0 }

/-- `table.SetCursor`. -/
def TableModel.setCursor (t : TableModel) (n : Nat) : TableModel :=
  { t with cursor := n }

/-- `table.Update` on scroll keys: up/k and down/j move the cursor,
clamped to the row range. -/
def TableModel.update (t : TableModel) (k : KeyMsg) : TableModel :=
  match k with
  | .up => { t with cursor := t.cursor - 1 }
  | .ch 'k' => { t with cursor := t.cursor - 1 }
  | .down => { t with cursor := min (t.cursor + 1) (t.rows.length - 1) }
  | .ch 'j' => { t with cursor := min (t.cursor + 1) (t.rows.length - 1) }
  | _ => t

/-! ## Tab registry (`tab.go`) -/

/-- `tabState`. -/
inductive TabState
  | loading
  | ready
  | error
  | empty
deriving DecidableEq

/-- `tab` — label and columns come from the static `config.TabConfig`;
the resolved Jira filter and the render-only status colorizer are not
modelled. -/
structure Tab where
  label : Str
  columns : List Str
  issues : List Issue
  state : TabState
  errMsg : Str
  quickFilter : IssueFilter
  table : TableModel
deriving DecidableEq

/-- `newTab`: a loading tab with an empty table and an inactive filter. -/
def newTab (label : Str) (columns : List Str) : Tab :=
  { label := label, columns := columns, issues := [], state := .loading,
    errMsg := [], quickFilter := newIssueFilter,
    table := { rows := [], cursor := 0 } }

/-- The `getD` default tab. -/
def emptyTab : Tab := newTab [] []

/-- `tab.setIssues`: replace the record set, reset the filter, recompute
the ready/empty state. -/
def Tab.setIssues (t : Tab) (issues : List Issue) : Tab :=
  let t := { t with issues := issues, quickFilter := t.quickFilter.clear }
  if issues = [] then { t with state := .empty }
  else
    { t with state := .ready,
             table := (t.table.setRows (issuesToRows issues t.columns)).gotoTop }

/-- `tab.setError`. -/
def Tab.setError (t : Tab) (msg : Str) : Tab :=
  { t with state := .error, errMsg := msg }

/-- `tab.setLoading`. -/
def Tab.setLoading (t : Tab) : Tab :=
  { t with state := .loading, issues := [] }

/-- `tab.selectedIssue`: the issue under the cursor of the filter-aware
visible list, if any. -/
def Tab.selectedIssue (t : Tab) : Option Issue :=
  if t.state = .ready ∧ t.issues ≠ [] then
    let visible := t.quickFilter.visibleIssues t.issues
    if t.table.cursor < visible.length then
      some (visible.getD t.table.cursor blankIssue)
    else none
  else none

/-- `tab.applyFilter`: rebuild the rows from the visible set and jump to
the top. -/
def Tab.applyFilter (t : Tab) : Tab :=
  let visible := t.quickFilter.visibleIssues t.issues
  { t with table := (t.table.setRows (issuesToRows visible t.columns)).gotoTop }

/-- The Go `for i, issue := range visible` search for a key: index of the
first issue with the given key. -/
def findKeyIdx : List Issue → Str → Option Nat
  | [], _ => none
  | i :: rest, key =>
      if i.key = key then some 0 else (findKeyIdx rest key).map (· + 1)

/-- `tab.applyFilterKeepCursor`: rebuild the rows from the visible set;
put the cursor back on `selectedKey` if it is still visible, otherwise
keep the numeric index clamped into range. -/
def Tab.applyFilterKeepCursor (t : Tab) (selectedKey : Str) : Tab :=
  let visible := t.quickFilter.visibleIssues t.issues
  let oldCursor := t.table.cursor
  let rows := issuesToRows visible t.columns
  match findKeyIdx visible selectedKey with
  | some i => { t with table := { rows := rows, cursor := i } }
  | none =>
      let c := if visible.length ≤ oldCursor then visible.length - 1
               else oldCursor
      { t with table := { rows := rows, cursor := c } }

/-- `tab.clearFilter`: drop the quick filter and restore the full list. -/
def Tab.clearFilter (t : Tab) : Tab :=
  { t with quickFilter := t.quickFilter.clear,
           table := (t.table.setRows (issuesToRows t.issues t.columns)).gotoTop }

/-- The filter-aware visible list of a tab. -/
def Tab.visibleIssues (t : Tab) : List Issue :=
  t.quickFilter.visibleIssues t.issues

/-! ## Overlay subsystem (`overlay.go`) -/

/-- `selectionItem`. -/
structure SelectionItem where
  id : Str
  label : Str
  desc : Str
  display : Str
  icon : Str
deriving DecidableEq

/-- The `getD` default selection item. -/
def noItem : SelectionItem :=
  { id := [], label := [], desc := [], display := [], icon := [] }

/-- An overlay's non-nil result: Go stores `*selectionItem`, `string` or
`true` in an `interface{}`; `nil` is `Option.none` around this type. -/
inductive OvResult
  | item (it : SelectionItem)
  | text (s : Str)
  | confirmed
deriving DecidableEq

/-- `selectionOverlay`. -/
structure SelectionOverlay where
  title : Str
  items : List SelectionItem
  filtered : List Nat
  cursor : Nat
  filter : TextInput
  isDone : Bool
  result : Option OvResult
deriving DecidableEq

/-- `selectionOverlay.applyFilter`: recompute the filtered index list
from the live query and clamp the cursor. -/
def SelectionOverlay.applyFilter (s : SelectionOverlay) : SelectionOverlay :=
  let query := lowerStr s.filter.value
  let filtered :=
    (s.items.enum.filter fun p =>
      query = [] || goContains (lowerStr p.2.label) query ||
        goContains (lowerStr p.2.desc) query).map fun p => p.1
  let cursor := if filtered.length ≤ s.cursor then filtered.length - 1
                else s.cursor
  { s with filtered := filtered, cursor := cursor }

/-- `newSelectionOverlay`. -/
def newSelectionOverlay (title : Str) (items : List SelectionItem) :
    SelectionOverlay :=
  SelectionOverlay.applyFilter
    { title := title, items := items, filtered := [], cursor := 0,
      filter := { value := [], focused := true }, isDone := false,
      result := none }

/-- `selectionOverlay.Update`. -/
def SelectionOverlay.update (s : SelectionOverlay) (k : KeyMsg) :
    SelectionOverlay :=
  match k with
  | .esc => { s with isDone := true, result := none }
  | .enter =>
      if 0 < s.filtered.length ∧ s.cursor < s.filtered.length then
        let idx := s.filtered.getD s.cursor 0
        { s with isDone := true, result := some (.item (s.items.getD idx noItem)) }
      else { s with isDone := true }
  | .up => if 0 < s.cursor then { s with cursor := s.cursor - 1 } else s
  | .ctrlP => if 0 < s.cursor then { s with cursor := s.cursor - 1 } else s
  | .down =>
      if s.cursor < s.filtered.length - 1 then { s with cursor := s.cursor + 1 }
      else s
  | .ctrlN =>
      if s.cursor < s.filtered.length - 1 then { s with cursor := s.cursor + 1 }
      else s
  | _ => SelectionOverlay.applyFilter { s with filter := s.filter.update k }

/-- `textInputOverlay`. -/
structure TextInputOverlay where
  title : Str
  input : TextInput
  isDone : Bool
  result : Option OvResult
deriving DecidableEq

/-- `newTextInputOverlay`. -/
def newTextInputOverlay (title initial : Str) : TextInputOverlay :=
  { title := title, input := { value := initial, focused := true },
    isDone := false, result := none }

/-- `textInputOverlay.Update`: enter confirms with the buffer (possibly
empty), esc cancels with no result. -/
def TextInputOverlay.update (t : TextInputOverlay) (k : KeyMsg) :
    TextInputOverlay :=
  match k with
  | .esc => { t with isDone := true, result := none }
  | .enter => { t with isDone := true, result := some (.text t.input.value) }
  | _ => { t with input := t.input.update k }

/-- `textEditorOverlay`. -/
structure TextEditorOverlay where
  title : Str
  editor : TextInput
  isDone : Bool
  result : Option OvResult
deriving DecidableEq

/-- `newTextEditorOverlay`. -/
def newTextEditorOverlay (title initial : Str) : TextEditorOverlay :=
  { title := title, editor := { value := initial, focused := true },
    isDone := false, result := none }

/-- `textEditorOverlay.Update`: ctrl+s confirms, esc cancels, enter
inserts a newline. -/
def TextEditorOverlay.update (e : TextEditorOverlay) (k : KeyMsg) :
    TextEditorOverlay :=
  match k with
  | .esc => { e with isDone := true, result := none }
  | .ctrlS => { e with isDone := true, result := some (.text e.editor.value) }
  | _ => { e with editor := e.editor.updateArea k }

/-- `confirmOverlay`. -/
structure ConfirmOverlay where
  message : Str
  isDone : Bool
  result : Option OvResult
deriving DecidableEq

/-- `newConfirmOverlay`. -/
def newConfirmOverlay (message : Str) : ConfirmOverlay :=
  { message := message, isDone := false, result := none }

/-- `confirmOverlay.Update`: y confirms with `true`; n and esc finish
with no result. -/
def ConfirmOverlay.update (c : ConfirmOverlay) (k : KeyMsg) : ConfirmOverlay :=
  match k with
  | .ch 'y' => { c with isDone := true, result := some .confirmed }
  | .ch 'Y' => { c with isDone := true, result := some .confirmed }
  | .ch 'n' => { c with isDone := true, result := none }
  | .ch 'N' => { c with isDone := true, result := none }
  | .esc => { c with isDone := true, result := none }
  | _ => c

/-- The closed union of the four overlay kinds. -/
inductive Overlay
  | selection (s : SelectionOverlay)
  | textInput (t : TextInputOverlay)
  | textEditor (e : TextEditorOverlay)
  | confirm (c : ConfirmOverlay)
deriving DecidableEq

/-- `overlay.Update`, dispatched over the union. -/
def Overlay.update (o : Overlay) (k : KeyMsg) : Overlay :=
  match o with
  | .selection s => .selection (s.update k)
  | .textInput t => .textInput (t.update k)
  | .textEditor e => .textEditor (e.update k)
  | .confirm c => .confirm (c.update k)

/-- `overlay.done()`. -/
def Overlay.doneOf (o : Overlay) : Bool × Option OvResult :=
  match o with
  | .selection s => (s.isDone, s.result)
  | .textInput t => (t.isDone, t.result)
  | .textEditor e => (e.isDone, e.result)
  | .confirm c => (c.isDone, c.result)

/-! ## Detail view (`detail.go`)

The scrollable viewport and the rendered text are layout-only; the view
is modelled by the data the renderer reads. -/

/-- `issueDetailView`. -/
structure IssueDetailView where
  issue : Issue
  loading : Bool
  dirty : Bool
  comments : List Comment
  commentsLoading : Bool
  children : List Issue
  childrenLoading : Bool
deriving DecidableEq

/-- `newIssueDetailView`: built from the already-known fields, with all
three background fetches marked in flight. -/
def newIssueDetailView (issue : Issue) : IssueDetailView :=
  { issue := issue, loading := true, dirty := false, comments := [],
    commentsLoading := true, children := [], childrenLoading := true }

/-- `issueDetailView.updateIssue`: replace the displayed issue and mark
the view dirty. -/
def IssueDetailView.updateIssue (v : IssueDetailView) (issue : Issue) :
    IssueDetailView :=
  { v with issue := issue, dirty := true }

/-- `issueDetailView.relatedIssues`, over the modelled relations (the
fetched children; parent/subtask/link references are not modelled).
The pre-rendered display and icon strings are styling, left empty. -/
def IssueDetailView.relatedIssues (v : IssueDetailView) : List SelectionItem :=
  v.children.map fun child =>
    let typeName :=
      match child.fields.issuetype with
      | some t => t.name
      | none => str "Child"
    { id := child.key,
      label := child.key ++ [' '] ++ child.fields.summary ++ [' '] ++ typeName,
      desc := typeName, display := [], icon := [] }

/-! ## Commands and messages (`app.go`) -/

/-- The field delta an update command carries (`cmdUpdateField`'s map). -/
inductive FieldDelta
  | priority (id : Str)
  | assignee (accountID : Str)
  | summary (text : Str)
  | description (doc : Str)
deriving DecidableEq

/-- The commands the handlers dispatch, reified (`tea.Cmd` values; a Go
`nil` command is the absence of an entry). -/
inductive AppCmd
  | quit
  | fetchIssue (key : Str)
  | fetchComments (key : Str)
  | fetchChildren (key : Str)
  | loadTab (index : Nat)
  | markDone (key : Str)
  | assignToMe (key accountID : Str)
  | fetchTransitions (key : Str)
  | fetchPriorities (key : Str)
  | fetchUsers
  | fetchIssueTypes
  | transitionIssue (key transitionID : Str)
  | updateField (key : Str) (delta : FieldDelta)
  | deleteIssue (key : Str)
  | createIssue (summary issueTypeName : Str)
  | addComment (key text : Str)
deriving DecidableEq

/-- `overlayAction`. -/
inductive OverlayAction
  | none'
  | transition
  | priority
  | assignee
  | title
  | description
  | delete
  | createSummary
  | createType
  | addComment
  | drillIn
deriving DecidableEq

/-- The messages re-injected into the update loop (the modelled subset:
key input plus the result messages the claims observe; the overlay-data
results and the resize/tick messages are not needed by any claim). -/
inductive Msg
  | key (k : KeyMsg)
  | tabData (tabIndex : Nat) (issues : List Issue) (err : Option Str)
  | issueUpdated (issueKey : Str) (issue : Option Issue) (err : Option Str)
  | issueDetail (issueKey : Str) (issue : Option Issue) (err : Option Str)
  | commentsLoaded (issueKey : Str) (comments : List Comment) (err : Option Str)
  | childrenLoaded (issueKey : Str) (children : List Issue) (err : Option Str)
  | commentAdded (issueKey : Str) (comment : Option Comment) (err : Option Str)
  | issueDeleted (issueKey : Str) (err : Option Str)
  | issueCreated (issueKey : Str) (err : Option Str)
  | setFlash (text : Str) (isErr : Bool)
deriving DecidableEq

/-! ## Application model (`app.go`) -/

/-- The root model.  `clientPresent` stands for `client != nil`; width,
height, spinner and the resolved-filter cache are rendering-only. -/
structure App where
  clientPresent : Bool
  user : Option User
  connErr : Option Str
  checking : Bool
  connected : Bool
  tabs : List Tab
  activeTab : Nat
  viewStack : List IssueDetailView
  overlay : Option Overlay
  overlayIssue : Str
  overlayAction : OverlayAction
  flash : Str
  flashIsErr : Bool
  cachedUsers : List CachedUser
  cachedPriorities : List Priority
  defaultProject : Str
  createSummary : Str
  inflight : Int
deriving DecidableEq

/-- `NewApp`: the connection check counts as the first in-flight
request when a client is configured. -/
def newApp (clientPresent : Bool) (tabs : List Tab) (defaultProject : Str) :
    App :=
  { clientPresent := clientPresent, user := none, connErr := none,
    checking := clientPresent, connected := false, tabs := tabs,
    activeTab := 0, viewStack := [], overlay := none, overlayIssue := [],
    overlayAction := .none', flash := [], flashIsErr := false,
    cachedUsers := [], cachedPriorities := [],
    defaultProject := defaultProject, createSummary := [],
    inflight := if clientPresent then 1 else 0 }

/-- The active tab, defaulted (Go indexes only under a bounds guard). -/
def App.activeTabD (a : App) : Tab := a.tabs.getD a.activeTab emptyTab

/-- Write one tab back into the registry. -/
def App.setTabAt (a : App) (i : Nat) (t : Tab) : App :=
  { a with tabs := a.tabs.set i t }

/-- `startNetwork`: count the command in flight (a nil command passes
through without counting, as in Go). -/
def App.startNetwork (a : App) (cmd : Option AppCmd) : App × List AppCmd :=
  match cmd with
  | none => (a, [])
  | some c => ({ a with inflight := a.inflight + 1 }, [c])

/-- `cmdFetchIssue` (nil without a client). -/
def App.cmdFetchIssue (a : App) (key : Str) : Option AppCmd :=
  if a.clientPresent then some (.fetchIssue key) else none

/-- `cmdFetchComments` (nil without a client). -/
def App.cmdFetchComments (a : App) (key : Str) : Option AppCmd :=
  if a.clientPresent then some (.fetchComments key) else none

/-- `cmdFetchChildren` (nil without a client). -/
def App.cmdFetchChildren (a : App) (key : Str) : Option AppCmd :=
  if a.clientPresent then some (.fetchChildren key) else none

/-- `cmdFetchTransitions` (nil without a client). -/
def App.cmdFetchTransitions (a : App) (key : Str) : Option AppCmd :=
  if a.clientPresent then some (.fetchTransitions key) else none

/-- `cmdFetchPriorities` (nil without a client). -/
def App.cmdFetchPriorities (a : App) (key : Str) : Option AppCmd :=
  if a.clientPresent then some (.fetchPriorities key) else none

/-- `cmdFetchIssueTypes` (nil without a client). -/
def App.cmdFetchIssueTypes (a : App) : Option AppCmd :=
  if a.clientPresent then some .fetchIssueTypes else none

/-- `cmdCreateIssue` (nil without a client). -/
def App.cmdCreateIssue (a : App) (summary issueTypeName : Str) :
    Option AppCmd :=
  if a.clientPresent then some (.createIssue summary issueTypeName) else none

/-- `cmdAddComment` (nil without a client). -/
def App.cmdAddComment (a : App) (key text : Str) : Option AppCmd :=
  if a.clientPresent then some (.addComment key text) else none

/-- `loadTab` (nil without a client or out of range). -/
def App.loadTabCmd (a : App) (index : Nat) : Option AppCmd :=
  if a.clientPresent ∧ index < a.tabs.length then some (.loadTab index)
  else none

/-- Remove the first issue with the given key (the indexed delete loop). -/
def removeFirstByKey : List Issue → Str → List Issue
  | [], _ => []
  | i :: rest, key =>
      if i.key = key then rest else i :: removeFirstByKey rest key

/-- Replace the first issue with the given key (the indexed update loop). -/
def replaceFirstByKey : List Issue → Str → Issue → List Issue
  | [], _, _ => []
  | i :: rest, key, u =>
      if i.key = key then u :: rest else i :: replaceFirstByKey rest key u

/-- The per-tab body of the optimistic-delete loop: if the key is
present, remove its first occurrence and rebuild rows keeping the
cursor; otherwise the tab is untouched. -/
def Tab.deleteIssue (t : Tab) (key : Str) : Tab :=
  if t.issues.any fun i => decide (i.key = key) then
    ({ t with issues := removeFirstByKey t.issues key }).applyFilterKeepCursor
      key
  else t

/-- The per-tab body of `applyIssueUpdate`: if the key is present,
replace its first occurrence and rebuild rows keeping the cursor. -/
def Tab.updateIssue (t : Tab) (key : Str) (u : Issue) : Tab :=
  if t.issues.any fun i => decide (i.key = key) then
    ({ t with issues := replaceFirstByKey t.issues key u
     }).applyFilterKeepCursor key
  else t

/-- `applyIssueUpdate`: fan the refreshed record out to every tab and to
the open detail view when it shows that key. -/
def App.applyIssueUpdate (a : App) (key : Str) (u : Issue) : App :=
  let tabs := a.tabs.map fun t => t.updateIssue key u
  let stack :=
    match a.viewStack with
    | dv :: rest =>
        if dv.issue.key = key then dv.updateIssue u :: rest else dv :: rest
    | [] => []
  { a with tabs := tabs, viewStack := stack }

/-- The "Not connected to Jira" flash reply. -/
def App.notConnected (a : App) : App × List AppCmd :=
  ({ a with flash := str "Not connected to Jira", flashIsErr := true }, [])

/-- `editHotkeys`: the keys that trigger issue editing actions. -/
def editHotkeys : List KeyMsg :=
  [.ch 's', .ch 'p', .ch 'd', .ch 'e', .ch 't', .ch 'i', .ch 'a', .del,
   .ch 'u', .ch 'y', .ch 'o']

/-- `handleEditHotkey`: `some` when the key was one of the edit hotkeys
(Go's `handled` flag).  Clipboard and browser calls are modelled on
their success path. -/
def App.handleEditHotkey (a : App) (k : KeyMsg) (issue : Issue) :
    Option (App × List AppCmd) :=
  if k ∉ editHotkeys then none
  else some <|
    match k with
    | .ch 'y' =>
        ({ a with flash := str "Copied " ++ issue.key, flashIsErr := false },
         [])
    | .ch 'u' =>
        if ¬a.clientPresent then a.notConnected
        else ({ a with flash := str "Copied URL", flashIsErr := false }, [])
    | .ch 'o' =>
        if ¬a.clientPresent then a.notConnected
        else
          ({ a with flash := str "Opened " ++ issue.key ++ str " in browser",
                    flashIsErr := false }, [])
    | _ =>
      if ¬a.clientPresent then a.notConnected
      else
        match k with
        | .ch 'd' =>
            ({ a with flash := str "Marking " ++ issue.key ++ str " as done...",
                      flashIsErr := false }, [.markDone issue.key])
        | .ch 'i' =>
            match a.user with
            | none => ({ a with flash := str "Not logged in",
                                flashIsErr := true }, [])
            | some u =>
                let msg := str "Assigning " ++ issue.key ++ str " to you..."
                ({ a with flash := msg, flashIsErr := false },
                 [.assignToMe issue.key u.accountID])
        | .ch 's' =>
            ({ a with overlayIssue := issue.key,
                      overlayAction := .transition,
                      flash := str "Loading transitions...",
                      flashIsErr := false },
             (a.cmdFetchTransitions issue.key).toList)
        | .ch 'p' =>
            let a := { a with overlayIssue := issue.key,
                              overlayAction := .priority }
            if a.cachedPriorities ≠ [] then
              let items := a.cachedPriorities.map fun p =>
                { noItem with id := p.id, label := p.name }
              let ov := newSelectionOverlay (str "Change Priority") items
              ({ a with overlay := some (.selection ov) }, [])
            else
              ({ a with flash := str "Loading priorities...",
                        flashIsErr := false },
               (a.cmdFetchPriorities issue.key).toList)
        | .ch 'a' =>
            let a := { a with overlayIssue := issue.key,
                              overlayAction := .assignee }
            if a.cachedUsers ≠ [] then
              let items := a.cachedUsers.map fun u =>
                { noItem with id := u.accountID, label := u.displayName,
                              desc := u.email }
              let ov := newSelectionOverlay (str "Assign To") items
              ({ a with overlay := some (.selection ov) }, [])
            else
              ({ a with flash := str "Loading users...",
                        flashIsErr := false }, [.fetchUsers])
        | .ch 't' =>
            let ov := newTextInputOverlay (str "Edit Title")
              issue.fields.summary
            ({ a with overlay := some (.textInput ov),
                      overlayIssue := issue.key, overlayAction := .title },
             [])
        | .ch 'e' =>
            let ov := newTextEditorOverlay (str "Edit Description")
              (extractADFText issue.fields.description)
            ({ a with overlay := some (.textEditor ov),
                      overlayIssue := issue.key,
                      overlayAction := .description }, [])
        | .del =>
            let msg := str "Delete " ++ issue.key ++
              str "? This cannot be undone."
            ({ a with overlay := some (.confirm (newConfirmOverlay msg)),
                      overlayIssue := issue.key, overlayAction := .delete },
             [])
        | _ => (a, [])

/-- `handleOverlayResult`: dismiss the overlay, then dispatch the edit
its result stands for.  A `none` result is a cancellation. -/
def App.handleOverlayResult (a : App) (result : Option OvResult) :
    App × List AppCmd :=
  let issueKey := a.overlayIssue
  let action := a.overlayAction
  let a := { a with overlay := none, overlayIssue := [],
                    overlayAction := .none' }
  match result with
  | none => (a, [])
  | some res =>
    match action, res with
    | .transition, .item it =>
        ({ a with flash := str "Transitioning " ++ issueKey ++ str "...",
                  flashIsErr := false }, [.transitionIssue issueKey it.id])
    | .priority, .item it =>
        let msg := str "Setting priority on " ++ issueKey ++ str "..."
        ({ a with flash := msg, flashIsErr := false },
         [.updateField issueKey (.priority it.id)])
    | .assignee, .item it =>
        ({ a with flash := str "Assigning " ++ issueKey ++ str "...",
                  flashIsErr := false },
         [.updateField issueKey (.assignee it.id)])
    | .title, .text s =>
        let msg := str "Updating title of " ++ issueKey ++ str "..."
        ({ a with flash := msg, flashIsErr := false },
         [.updateField issueKey (.summary s)])
    | .description, .text s =>
        let msg := str "Updating description of " ++ issueKey ++ str "..."
        ({ a with flash := msg, flashIsErr := false },
         [.updateField issueKey (.description (makeADFDocument s))])
    | .delete, _ =>
        let stack :=
          match a.viewStack with
          | dv :: rest =>
              if dv.issue.key = issueKey then rest else dv :: rest
          | [] => []
        let tabs := a.tabs.map fun t => t.deleteIssue issueKey
        ({ a with viewStack := stack, tabs := tabs,
                  flash := issueKey ++ str " deleted", flashIsErr := false },
         [.deleteIssue issueKey])
    | .createSummary, .text s =>
        if trimSpace s = [] then
          ({ a with flash := str "Summary cannot be empty",
                    flashIsErr := true }, [])
        else
          ({ a with createSummary := s, overlayAction := .createType,
                    flash := str "Loading issue types...",
                    flashIsErr := false }, a.cmdFetchIssueTypes.toList)
    | .createType, .item it =>
        ({ a with createSummary := [], flash := str "Creating issue...",
                  flashIsErr := false },
         (a.cmdCreateIssue a.createSummary it.label).toList)
    | .drillIn, .item it =>
        let stub := { blankIssue with key := it.id }
        let a' := { a with viewStack := newIssueDetailView stub ::
                     a.viewStack, inflight := a.inflight + 2 }
        let r := a'.startNetwork (a'.cmdFetchIssue it.id)
        (r.1, r.2 ++ (a.cmdFetchComments it.id).toList ++
          (a.cmdFetchChildren it.id).toList)
    | .addComment, .text text =>
        if trimSpace text = [] then
          ({ a with flash := str "Comment cannot be empty",
                    flashIsErr := true }, [])
        else
          let placeholder : Comment :=
            { id := [], author := none, body := makeADFDocument text,
              created := str "just now", updated := [] }
          let stack :=
            match a.viewStack with
            | dv :: rest =>
                { dv with comments := placeholder :: dv.comments } :: rest
            | [] => []
          let a' := { a with viewStack := stack,
                             flash := str "Adding comment...",
                             flashIsErr := false }
          a'.startNetwork (a'.cmdAddComment issueKey text)
    | _, _ => (a, [])

/-- The enter/down action of `handleFilterKey`: confirm the quick
filter (`quickFilter.apply` followed by `tab.applyFilter`). -/
def Tab.confirmFilter (t : Tab) : Tab :=
  ({ t with quickFilter := t.quickFilter.apply t.issues t.columns
   }).applyFilter

/-- `handleFilterKey`: key routing while the quick-filter input is
focused. -/
def App.handleFilterKey (a : App) (k : KeyMsg) : App × List AppCmd :=
  let t := a.activeTabD
  match k with
  | .enter => (a.setTabAt a.activeTab t.confirmFilter, [])
  | .down => (a.setTabAt a.activeTab t.confirmFilter, [])
  | .esc => (a.setTabAt a.activeTab t.clearFilter, [])
  | _ =>
      let qf := { t.quickFilter with input := t.quickFilter.input.update k }
      let t := { t with quickFilter := qf.updateQuery t.issues t.columns }
      (a.setTabAt a.activeTab t.applyFilter, [])

/-- The default branch of the tab-level key switch: try the edit hotkeys
on the selected issue, else scroll the table. -/
def App.defaultTabKey (a : App) (k : KeyMsg) : App × List AppCmd :=
  let tryEdit : Option (App × List AppCmd) :=
    if a.activeTab < a.tabs.length ∧ a.activeTabD.state = .ready then
      match a.activeTabD.selectedIssue with
      | some issue => a.handleEditHotkey k issue
      | none => none
    else none
  match tryEdit with
  | some r => r
  | none =>
      if a.activeTab < a.tabs.length ∧ a.activeTabD.state = .ready then
        (a.setTabAt a.activeTab
          { a.activeTabD with table := a.activeTabD.table.update k }, [])
      else (a, [])

/-- The tab-level key switch (no stacked view, filter not focused). -/
def App.handleTabKey (a : App) (k : KeyMsg) : App × List AppCmd :=
  match k with
  | .ch 'q' => (a, [.quit])
  | .esc =>
      if a.activeTab < a.tabs.length ∧ a.activeTabD.quickFilter.isActive then
        (a.setTabAt a.activeTab a.activeTabD.clearFilter, [])
      else (a, [])
  | .ch '/' =>
      if a.activeTab < a.tabs.length ∧ a.activeTabD.state = .ready then
        (a.setTabAt a.activeTab
          { a.activeTabD with quickFilter := a.activeTabD.quickFilter.activate },
         [])
      else (a, [])
  | .ch 'r' =>
      if a.connected ∧ a.activeTab < a.tabs.length then
        let a' := a.setTabAt a.activeTab a.activeTabD.setLoading
        a'.startNetwork (a'.loadTabCmd a'.activeTab)
      else (a, [])
  | .ch 'c' =>
      if ¬a.clientPresent then a.notConnected
      else if a.defaultProject = [] then
        ({ a with flash := str "Set default_project in config to create issues",
                  flashIsErr := true }, [])
      else
        ({ a with overlay := some (.textInput (newTextInputOverlay
             (str "New Issue Summary") [])),
                  overlayAction := .createSummary }, [])
  | .enter =>
      if a.activeTab < a.tabs.length then
        match a.activeTabD.selectedIssue with
        | some issue =>
            let a' := { a with viewStack := newIssueDetailView issue ::
                         a.viewStack, inflight := a.inflight + 2 }
            let r := a'.startNetwork (a'.cmdFetchIssue issue.key)
            (r.1, r.2 ++ (a.cmdFetchComments issue.key).toList ++
              (a.cmdFetchChildren issue.key).toList)
        | none => (a, [])
      else (a, [])
  | .ch c =>
      if '1' ≤ c ∧ c ≤ '9' then
        let idx := c.toNat - '1'.toNat
        if idx < a.tabs.length then
          let a' :=
            if a.activeTab < a.tabs.length then
              a.setTabAt a.activeTab a.activeTabD.clearFilter
            else a
          ({ a' with activeTab := idx }, [])
        else (a, [])
      else a.defaultTabKey (.ch c)
  | _ => a.defaultTabKey k

/-- `handleKey`: the routing precedence — kill switch, overlay, view
stack, focused filter, tab level. -/
def App.handleKey (a : App) (k : KeyMsg) : App × List AppCmd :=
  if k = .ctrlC then (a, [.quit])
  else
    match a.overlay with
    | some o =>
        let o' := o.update k
        let a' := { a with overlay := some o' }
        if o'.doneOf.1 then a'.handleOverlayResult o'.doneOf.2
        else (a', [])
    | none =>
      match a.viewStack with
      | dv :: rest =>
          match k with
          | .ch 'q' => (a, [.quit])
          | .esc =>
              let dirtyKey := if dv.dirty then dv.issue.key else []
              let a' := { a with viewStack := rest }
              if dirtyKey ≠ [] ∧ a.connected then
                (a', (a.cmdFetchIssue dirtyKey).toList)
              else (a', [])
          | .enter =>
              let items := dv.relatedIssues
              if items = [] then
                ({ a with flash := str "No related issues",
                          flashIsErr := false }, [])
              else
                ({ a with overlay := some (.selection (newSelectionOverlay
                     (str "Related Issues") items)),
                          overlayAction := .drillIn }, [])
          | .ch 'c' =>
              if ¬a.clientPresent then a.notConnected
              else
                ({ a with overlay := some (.textEditor (newTextEditorOverlay
                     (str "Add Comment") [])),
                          overlayIssue := dv.issue.key,
                          overlayAction := .addComment }, [])
          | _ =>
              match a.handleEditHotkey k dv.issue with
              | some r => r
              | none => (a, [])
      | [] =>
          if a.activeTab < a.tabs.length ∧
              a.activeTabD.quickFilter.isFocused then
            a.handleFilterKey k
          else a.handleTabKey k

/-- The `tabDataMsg` case of `Update`. -/
def App.onTabData (a : App) (idx : Nat) (issues : List Issue)
    (err : Option Str) : App × List AppCmd :=
  let a := { a with inflight := a.inflight - 1 }
  if idx < a.tabs.length then
    match err with
    | some e => (a.setTabAt idx ((a.tabs.getD idx emptyTab).setError e), [])
    | none => (a.setTabAt idx ((a.tabs.getD idx emptyTab).setIssues issues), [])
  else (a, [])

/-- The `issueUpdatedMsg` case of `Update`. -/
def App.onIssueUpdated (a : App) (key : Str) (issue : Option Issue)
    (err : Option Str) : App × List AppCmd :=
  let a := { a with inflight := a.inflight - 1, flash := [] }
  match err with
  | some e => ({ a with flash := e, flashIsErr := true }, [])
  | none =>
      match issue with
      | some u =>
          ({ a.applyIssueUpdate key u with
               flash := key ++ str " updated", flashIsErr := false }, [])
      | none => (a, [])

/-- The `issueDetailMsg` case of `Update`. -/
def App.onIssueDetail (a : App) (key : Str) (issue : Option Issue)
    (err : Option Str) : App × List AppCmd :=
  let a := { a with inflight := a.inflight - 1 }
  match err with
  | some e =>
      let msg := str "Failed to load " ++ key ++ str ": " ++ e
      let a := { a with flash := msg, flashIsErr := true }
      (match a.viewStack with
       | dv :: rest =>
           if dv.issue.key = key then
             ({ a with viewStack := { dv with loading := false } :: rest },
              [])
           else (a, [])
       | [] => (a, []))
  | none =>
      match issue with
      | some u =>
          let a := a.applyIssueUpdate key u
          (match a.viewStack with
           | dv :: rest =>
               if dv.issue.key = key then
                 let dv' := { dv with issue := u, loading := false }
                 ({ a with viewStack := dv' :: rest }, [])
               else (a, [])
           | [] => (a, []))
      | none => (a, [])

/-- The `commentsLoadedMsg` case of `Update`. -/
def App.onCommentsLoaded (a : App) (key : Str) (comments : List Comment)
    (err : Option Str) : App × List AppCmd :=
  let a := { a with inflight := a.inflight - 1 }
  match a.viewStack with
  | dv :: rest =>
      if dv.issue.key = key then
        match err with
        | some _ =>
            let dv' := { dv with commentsLoading := false }
            ({ a with viewStack := dv' :: rest }, [])
        | none =>
            let dv' := { dv with comments := comments,
                                 commentsLoading := false }
            ({ a with viewStack := dv' :: rest }, [])
      else (a, [])
  | [] => (a, [])

/-- The `childrenLoadedMsg` case of `Update`. -/
def App.onChildrenLoaded (a : App) (key : Str) (children : List Issue)
    (err : Option Str) : App × List AppCmd :=
  let a := { a with inflight := a.inflight - 1 }
  match a.viewStack with
  | dv :: rest =>
      if dv.issue.key = key then
        let dv := match err with
          | none => { dv with children := children,
                              childrenLoading := false }
          | some _ => { dv with childrenLoading := false }
        ({ a with viewStack := dv :: rest }, [])
      else (a, [])
  | [] => (a, [])

/-- The `commentAddedMsg` case of `Update`. -/
def App.onCommentAdded (a : App) (key : Str) (comment : Option Comment)
    (err : Option Str) : App × List AppCmd :=
  let a := { a with inflight := a.inflight - 1 }
  match err with
  | some e =>
      let a := { a with flash := e, flashIsErr := true }
      (match a.viewStack with
       | dv :: rest =>
           if dv.issue.key = key ∧ dv.comments ≠ [] then
             let dv' := { dv with comments := dv.comments.tail }
             ({ a with viewStack := dv' :: rest }, [])
           else (a, [])
       | [] => (a, []))
  | none =>
      let a := { a with flash := str "Comment added", flashIsErr := false }
      (match a.viewStack, comment with
       | dv :: rest, some c =>
           if dv.issue.key = key ∧ dv.comments ≠ [] then
             let dv' := { dv with comments := c :: dv.comments.tail }
             ({ a with viewStack := dv' :: rest }, [])
           else (a, [])
       | _, _ => (a, []))

/-- The `issueDeletedMsg` case of `Update`: a failure only flashes; the
optimistically removed record is not re-inserted. -/
def App.onIssueDeleted (a : App) (err : Option Str) : App × List AppCmd :=
  let a := { a with inflight := a.inflight - 1 }
  match err with
  | some e =>
      ({ a with flash := str "Delete failed: " ++ e, flashIsErr := true }, [])
  | none => (a, [])

/-- The `issueCreatedMsg` case of `Update`. -/
def App.onIssueCreated (a : App) (key : Str) (err : Option Str) :
    App × List AppCmd :=
  let a := { a with inflight := a.inflight - 1, flash := [] }
  match err with
  | some e => ({ a with flash := e, flashIsErr := true }, [])
  | none =>
      let stub := { blankIssue with key := key }
      let a := { a with flash := str "Created " ++ key, flashIsErr := false,
                        viewStack := newIssueDetailView stub :: a.viewStack,
                        inflight := a.inflight + 2 }
      let extra : List AppCmd :=
        if a.connected && Nat.blt a.activeTab a.tabs.length then
          (a.loadTabCmd a.activeTab).toList
        else []
      let cmds := (a.cmdFetchIssue key).toList ++
        (a.cmdFetchComments key).toList ++
        (a.cmdFetchChildren key).toList ++ extra
      (a, cmds)

/-- `Update`: the single message-handling reducer.  Every keypress
clears the transient flash before routing. -/
def App.update (a : App) (m : Msg) : App × List AppCmd :=
  match m with
  | .key k => App.handleKey { a with flash := [] } k
  | .tabData idx issues err => a.onTabData idx issues err
  | .issueUpdated key issue err => a.onIssueUpdated key issue err
  | .issueDetail key issue err => a.onIssueDetail key issue err
  | .commentsLoaded key comments err => a.onCommentsLoaded key comments err
  | .childrenLoaded key children err => a.onChildrenLoaded key children err
  | .commentAdded key comment err => a.onCommentAdded key comment err
  | .issueDeleted _ err => a.onIssueDeleted err
  | .issueCreated key err => a.onIssueCreated key err
  | .setFlash text isErr => ({ a with flash := text, flashIsErr := isErr }, [])

/-! ## Network-side behaviour of `cmdMarkDone` -/

/-- Does a transition land in the "done" status category? -/
def isDoneTransition (t : Transition) : Bool :=
  match t.toStatus with
  | some st =>
      match st.statusCategory with
      | some sc => decide (sc.key = str "done")
      | none => false
  | none => false

/-- The search loop of `cmdMarkDone`: the first transition whose target
category is "done". -/
def findDoneTransition (ts : List Transition) : Option Transition :=
  ts.find? isDoneTransition

/-- The error text when no "done" transition exists. -/
def noDoneMsg (key : Str) : Str :=
  str "no \x27done\x27 transition available for " ++ key

/-- `cmdMarkDone`, as a function of the backend's three answers: the
transitions listing, the error of the transition call (if reached) and
the re-fetch outcome.  It always returns exactly one message. -/
def runMarkDone (key : Str) (transitionsRes : Except Str (List Transition))
    (transitionErr : Option Str) (refetch : Except Str Issue) : Msg :=
  match transitionsRes with
  | .error e => .issueUpdated key none (some (str "get transitions: " ++ e))
  | .ok ts =>
      match findDoneTransition ts with
      | none => .issueUpdated key none (some (noDoneMsg key))
      | some _ =>
          match transitionErr with
          | some e => .issueUpdated key none (some (str "transition: " ++ e))
          | none =>
              match refetch with
              | .error e =>
                  .issueUpdated key none (some (str "refresh: " ++ e))
              | .ok issue => .issueUpdated key (some issue) none

/-! ## Concrete scenario data

Small concrete states used to evaluate the handlers on explicit inputs;
`runMsgs` drives the reducer over a message sequence. -/

/-- Fold a message sequence through the reducer, keeping the state. -/
def runMsgs (a : App) (ms : List Msg) : App :=
  ms.foldl (fun acc m => (acc.update m).1) a

/-- A record with a key and a summary, all other fields empty. -/
def demoIssue (key summary : Str) : Issue :=
  { blankIssue with key := key,
                    fields := { blankIssue.fields with summary := summary } }

/-- The spec's example record A-1 "Fix login". -/
def demoA1 : Issue := demoIssue (str "A-1") (str "Fix login")

/-- The spec's example record A-2 "Update dashboard". -/
def demoA2 : Issue := demoIssue (str "A-2") (str "Update dashboard")

/-- The spec's example record A-3 "Fix logout". -/
def demoA3 : Issue := demoIssue (str "A-3") (str "Fix logout")

/-- Key and summary columns. -/
def demoCols : List Str := [str "key", str "summary"]

/-- The spec's example record list. -/
def demoIssues : List Issue := [demoA1, demoA2, demoA3]

/-- A connected app whose one tab has loaded the example records:
`newApp` with a client, followed by the tab-data result message (the
connection check having succeeded out of frame). -/
def demoApp : App :=
  let a0 := { newApp true [newTab (str "Work") demoCols] [] with
                connected := true, checking := false }
  (a0.update (.tabData 0 demoIssues none)).1

/-- From `demoApp`: focus the quick filter, type "fix", confirm, then
delete the selected record A-1 through the confirmation overlay. -/
def demoDeleteFiltered : App :=
  runMsgs demoApp [.key (.ch '/'), .key (.ch 'f'), .key (.ch 'i'),
    .key (.ch 'x'), .key .enter, .key .del, .key (.ch 'y')]

/-- From `demoApp`: open the detail view of A-1, receive all three
fetch results, then press esc — which pops the (dirty) view and issues
the background re-fetch. -/
def demoEscPop : App × List AppCmd :=
  (runMsgs demoApp [.key .enter,
     .issueDetail (str "A-1") (some demoA1) none,
     .commentsLoaded (str "A-1") [] none,
     .childrenLoaded (str "A-1") [] none]).update (.key .esc)

/-- From `demoApp`: press delete on the selected record A-1, leaving
its confirmation overlay open. -/
def demoConfirmDelete : App := runMsgs demoApp [.key .del]

/-! ## Helper lemmas -/

/-- `goContains` decides infix containment. -/
theorem goContains_iff {s sub : Str} : goContains s sub = true ↔ sub <:+: s := by
  simp [goContains]

/-- A found key index points at an issue with that key. -/
theorem findKeyIdx_getD {l : List Issue} {key : Str} {n : Nat}
    (h : findKeyIdx l key = some n) : (l.getD n blankIssue).key = key := by
  induction l generalizing n with
  | nil => simp [findKeyIdx] at h
  | cons i rest ih =>
      by_cases hk : i.key = key
      · simp [findKeyIdx, hk] at h
        subst h
        simpa using hk
      · simp [findKeyIdx, hk] at h
        obtain ⟨m, hm, rfl⟩ := h
        simpa using ih hm

/-- A present key is found. -/
theorem findKeyIdx_isSome {l : List Issue} {key : Str}
    (h : ∃ x ∈ l, x.key = key) : (findKeyIdx l key).isSome := by
  induction l with
  | nil => simp at h
  | cons i rest ih =>
      by_cases hk : i.key = key
      · simp [findKeyIdx, hk]
      · obtain ⟨x, hx, hxk⟩ := h
        rcases List.mem_cons.mp hx with h1 | h1
        · exact absurd (h1 ▸ hxk) hk
        · obtain ⟨m, hm⟩ := Option.isSome_iff_exists.mp (ih ⟨x, h1, hxk⟩)
          simp [findKeyIdx, hk, hm]

/-- The membership test the handlers run over a tab's record list. -/
theorem anyKey_iff {l : List Issue} {key : Str} :
    (l.any fun i => decide (i.key = key)) = true ↔ ∃ x ∈ l, x.key = key := by
  simp [List.any_eq_true]

/-- Replacing a key that does not occur is the identity, pointwise. -/
theorem map_replace_eq_self {l : List Issue} {key : Str} {u : Issue}
    (h : key ∉ l.map Issue.key) :
    (l.map fun i => if i.key = key then u else i) = l := by
  induction l with
  | nil => rfl
  | cons i rest ih =>
      simp only [List.map_cons, List.mem_cons] at h ⊢
      push_neg at h
      rw [if_neg (fun hk => h.1 hk.symm), ih h.2]

/-- With pairwise-distinct keys, replacing the first occurrence replaces
every occurrence. -/
theorem replaceFirstByKey_eq_map {l : List Issue} {key : Str} {u : Issue}
    (h : (l.map Issue.key).Nodup) :
    replaceFirstByKey l key u = l.map fun i => if i.key = key then u else i := by
  induction l with
  | nil => rfl
  | cons i rest ih =>
      simp only [List.map_cons, List.nodup_cons] at h
      by_cases hk : i.key = key
      · subst hk
        simp [replaceFirstByKey, map_replace_eq_self h.1]
      · simp only [replaceFirstByKey, if_neg hk, List.map_cons, if_neg hk]
        rw [ih h.2]

/-- `applyFilterKeepCursor` only rebuilds the table. -/
theorem applyFilterKeepCursor_issues (t : Tab) (key : Str) :
    (t.applyFilterKeepCursor key).issues = t.issues := by
  simp only [Tab.applyFilterKeepCursor]
  cases h : findKeyIdx (t.quickFilter.visibleIssues t.issues) key <;> simp [h]

/-- `applyFilterKeepCursor` leaves the quick filter untouched. -/
theorem applyFilterKeepCursor_quickFilter (t : Tab) (key : Str) :
    (t.applyFilterKeepCursor key).quickFilter = t.quickFilter := by
  simp only [Tab.applyFilterKeepCursor]
  cases h : findKeyIdx (t.quickFilter.visibleIssues t.issues) key <;> simp [h]

/-- `applyFilterKeepCursor` does not change the visible set. -/
theorem applyFilterKeepCursor_visibleIssues (t : Tab) (key : Str) :
    (t.applyFilterKeepCursor key).visibleIssues = t.visibleIssues := by
  unfold Tab.visibleIssues
  rw [applyFilterKeepCursor_issues, applyFilterKeepCursor_quickFilter]

/-- When the key is visible, `applyFilterKeepCursor` parks the cursor on
a row with that key. -/
theorem applyFilterKeepCursor_cursor_key (t : Tab) (key : Str)
    (hx : ∃ x ∈ t.visibleIssues, x.key = key) :
    ((t.applyFilterKeepCursor key).visibleIssues.getD
        (t.applyFilterKeepCursor key).table.cursor blankIssue).key = key := by
  have hsome := findKeyIdx_isSome hx
  obtain ⟨n, hn⟩ := Option.isSome_iff_exists.mp hsome
  have hcur : (t.applyFilterKeepCursor key).table.cursor = n := by
    simp only [Tab.applyFilterKeepCursor]
    unfold Tab.visibleIssues at hn
    simp [hn]
  rw [applyFilterKeepCursor_visibleIssues, hcur]
  exact findKeyIdx_getD hn

/-! ## Claim theorems -/

/-- C4: for every record list, column set and non-empty query, a record
is in the filtered set iff one of its visible column values contains the
query case-insensitively, and filtering preserves the original order. -/
theorem filter_membership_characterisation
    (issues : List Issue) (columns : List Str) (q : Str) (_hq : q ≠ []) :
    (∀ r, r ∈ filterIssues issues columns q ↔
       r ∈ issues ∧ ∃ c ∈ columns, ContainsCI (fieldValue r c) q) ∧
    (filterIssues issues columns q).Sublist issues := by
  constructor
  · intro r
    simp [filterIssues, List.mem_filter, List.any_eq_true, goContains,
      ContainsCI]
  · exact List.filter_sublist _

/-- Witness for C4 on the spec's example data with query "fix". -/
theorem filter_membership_witness :
    str "fix" ≠ [] ∧
    (demoA1 ∈ filterIssues demoIssues demoCols (str "fix") ↔
      demoA1 ∈ demoIssues ∧
        ∃ c ∈ demoCols, ContainsCI (fieldValue demoA1 c) (str "fix")) :=
  ⟨by decide,
   (filter_membership_characterisation demoIssues demoCols (str "fix")
     (by decide)).1 demoA1⟩

/-- C8: confirming the quick filter with a whitespace-only buffer is the
same tab state as clearing it; clear is idempotent; the visible set
after clearing is the full record list. -/
theorem empty_filter_confirm_equals_clear (t : Tab) (f : IssueFilter)
    (issues : List Issue)
    (ht : trimSpace t.quickFilter.input.value = [])
    (hf : trimSpace f.input.value = []) (columns : List Str) :
    t.confirmFilter = t.clearFilter ∧
    f.apply issues columns = f.clear ∧
    f.clear.clear = f.clear ∧
    f.clear.visibleIssues issues = issues := by
  refine ⟨?_, ?_, rfl, rfl⟩
  · unfold Tab.confirmFilter Tab.clearFilter Tab.applyFilter
    rw [show t.quickFilter.apply t.issues t.columns = t.quickFilter.clear by
      unfold IssueFilter.apply; rw [ht]; rfl]
    rfl
  · unfold IssueFilter.apply
    rw [hf]
    rfl

/-- Witness for C8 on the example tab with a whitespace-only buffer. -/
theorem empty_filter_confirm_witness :
    (let t := { (newTab (str "Work") demoCols).setIssues demoIssues with
                  quickFilter := { newIssueFilter with
                    state := .focused,
                    input := { value := str "  ", focused := true } } }
     t.confirmFilter = t.clearFilter ∧
     newIssueFilter.apply demoIssues demoCols = newIssueFilter.clear ∧
     newIssueFilter.clear.clear = newIssueFilter.clear ∧
     newIssueFilter.clear.visibleIssues demoIssues = demoIssues) :=
  empty_filter_confirm_equals_clear _ newIssueFilter demoIssues
    (by decide) (by decide) demoCols

/-- C9, counterexample: answering "no" to a confirm overlay does not
produce the value `false` — it finishes with the `none` result, exactly
like cancelling with esc, so a "no" answer is not distinguishable from a
cancellation. -/
theorem confirm_no_yields_none_cx :
    ((Overlay.confirm (newConfirmOverlay (str "Delete A-1?"))).update
        (.ch 'n')).doneOf = (true, none) ∧
    ((Overlay.confirm (newConfirmOverlay (str "Delete A-1?"))).update
        .esc).doneOf = (true, none) := ⟨rfl, rfl⟩

/-- C9, amended: cancelling any overlay kind yields the `none` result;
confirming the single-line text input with an empty buffer yields the
empty string, which is distinguishable from `none`; the confirm overlay
yields `true` on "yes", while "no" behaves as a cancellation and yields
`none`. -/
theorem overlay_results_distinguish_cancel (titleS init msg : Str)
    (items : List SelectionItem) :
    ((Overlay.textInput (newTextInputOverlay titleS init)).update
        .esc).doneOf = (true, none) ∧
    ((Overlay.textEditor (newTextEditorOverlay titleS init)).update
        .esc).doneOf = (true, none) ∧
    ((Overlay.confirm (newConfirmOverlay msg)).update .esc).doneOf =
      (true, none) ∧
    ((Overlay.selection (newSelectionOverlay titleS items)).update
        .esc).doneOf = (true, none) ∧
    ((Overlay.textInput (newTextInputOverlay titleS [])).update
        .enter).doneOf = (true, some (.text [])) ∧
    (some (OvResult.text []) ≠ (none : Option OvResult)) ∧
    ((Overlay.confirm (newConfirmOverlay msg)).update (.ch 'y')).doneOf =
      (true, some .confirmed) ∧
    ((Overlay.confirm (newConfirmOverlay msg)).update (.ch 'n')).doneOf =
      (true, none) :=
  ⟨rfl, rfl, rfl, rfl, rfl, by simp, rfl, rfl⟩

/-- C10: confirming the Edit Title overlay with whitespace-only text
still dispatches the summary update, while the New Issue Summary and
Add Comment overlays refuse whitespace-only text with an error flash,
no command and unchanged record state. -/
theorem empty_input_guard_create_comment_not_title (a : App) (w : Str)
    (hw : trimSpace w = []) :
    (let r := App.handleOverlayResult { a with overlayAction := .title }
       (some (.text w))
     r.2 = [.updateField a.overlayIssue (.summary w)] ∧
       r.1.tabs = a.tabs ∧ r.1.viewStack = a.viewStack) ∧
    (let r := App.handleOverlayResult
       { a with overlayAction := .createSummary } (some (.text w))
     r.2 = [] ∧ r.1.flash = str "Summary cannot be empty" ∧
       r.1.flashIsErr = true ∧ r.1.tabs = a.tabs ∧
       r.1.viewStack = a.viewStack) ∧
    (let r := App.handleOverlayResult { a with overlayAction := .addComment }
       (some (.text w))
     r.2 = [] ∧ r.1.flash = str "Comment cannot be empty" ∧
       r.1.flashIsErr = true ∧ r.1.tabs = a.tabs ∧
       r.1.viewStack = a.viewStack) := by
  refine ⟨?_, ?_, ?_⟩ <;> simp [App.handleOverlayResult, hw]

/-- Witness for C10 with a two-space input. -/
theorem empty_input_guard_witness :
    (let r := App.handleOverlayResult
       { demoApp with overlayAction := .title } (some (.text (str "  ")))
     r.2 = [.updateField demoApp.overlayIssue (.summary (str "  "))] ∧
       r.1.tabs = demoApp.tabs ∧ r.1.viewStack = demoApp.viewStack) ∧
    (let r := App.handleOverlayResult
       { demoApp with overlayAction := .createSummary }
       (some (.text (str "  ")))
     r.2 = [] ∧ r.1.flash = str "Summary cannot be empty" ∧
       r.1.flashIsErr = true ∧ r.1.tabs = demoApp.tabs ∧
       r.1.viewStack = demoApp.viewStack) ∧
    (let r := App.handleOverlayResult
       { demoApp with overlayAction := .addComment }
       (some (.text (str "  ")))
     r.2 = [] ∧ r.1.flash = str "Comment cannot be empty" ∧
       r.1.flashIsErr = true ∧ r.1.tabs = demoApp.tabs ∧
       r.1.viewStack = demoApp.viewStack) :=
  empty_input_guard_create_comment_not_title demoApp (str "  ") (by decide)

/-- C6: when the backend lists no transition whose target category is
"done", the mark-done command produces an error message; handling it
leaves every tab and the view stack unchanged and sets an error flash
that contains "no" and the record key. -/
theorem mark_done_no_done_transition (a : App) (key : Str)
    (ts : List Transition) (tErr : Option Str) (rf : Except Str Issue)
    (h : ∀ t ∈ ts, isDoneTransition t = false) :
    runMarkDone key (.ok ts) tErr rf =
      .issueUpdated key none (some (noDoneMsg key)) ∧
    (let r := a.update (.issueUpdated key none (some (noDoneMsg key)))
     r.1.tabs = a.tabs ∧ r.1.viewStack = a.viewStack ∧
       r.1.flash = noDoneMsg key ∧ r.1.flashIsErr = true ∧
       str "no" <:+: r.1.flash ∧ key <:+: r.1.flash) := by
  have hfind : findDoneTransition ts = none := by
    apply List.find?_eq_none.mpr
    intro t ht
    simp [h t ht]
  refine ⟨?_, rfl, rfl, rfl, rfl, ?_, ?_⟩
  · simp [runMarkDone, hfind]
  · show str "no" <:+: noDoneMsg key
    exact (List.IsPrefix.isInfix ⟨str " \x27done\x27 transition available for " ++ key, by simp [noDoneMsg, str]⟩)
  · show key <:+: noDoneMsg key
    exact (List.IsSuffix.isInfix ⟨str "no \x27done\x27 transition available for ", rfl⟩)

/-- Witness for C6: a record whose only transition targets "To Do". -/
theorem mark_done_no_done_witness :
    (let sc : StatusCategory := { id := 2, key := str "new", name := str "To Do" }
     let st : Status := { name := str "To Do", id := str "1", statusCategory := some sc }
     let ts : List Transition := [{ id := str "11", name := str "To Do", toStatus := some st }]
     runMarkDone (str "A-1") (.ok ts) none (.error []) =
       .issueUpdated (str "A-1") none (some (noDoneMsg (str "A-1"))) ∧
     (let r := demoApp.update
        (.issueUpdated (str "A-1") none (some (noDoneMsg (str "A-1"))))
      r.1.tabs = demoApp.tabs ∧ r.1.viewStack = demoApp.viewStack ∧
        r.1.flash = noDoneMsg (str "A-1") ∧ r.1.flashIsErr = true ∧
        str "no" <:+: r.1.flash ∧ str "A-1" <:+: r.1.flash)) :=
  mark_done_no_done_transition demoApp (str "A-1") _ none (.error [])
    (by decide)

/-- C5, counterexample: with the delete-confirmation overlay active,
the keypress 'y' (which is not the kill-switch) completes the overlay
and mutates the record lists — A-1 is removed from the tab — so the tab
registry and record lists are not invariant under overlay keypresses. -/
theorem overlay_keypress_mutates_records_cx :
    demoConfirmDelete.overlay.isSome = true ∧
    KeyMsg.ch 'y' ≠ KeyMsg.ctrlC ∧
    ((demoConfirmDelete.update (.key (.ch 'y'))).1.tabs.getD 0
        emptyTab).issues ≠
      (demoConfirmDelete.tabs.getD 0 emptyTab).issues := by
  refine ⟨by decide, by decide, by decide⟩

/-- C5, amended: while an overlay is active, every keypress other than
the kill switch is forwarded to the overlay; when the overlay does not
complete on that key, the handling changes only the overlay's state
(and clears the transient flash, as every keypress does) — the tab
registry, record lists, view stack and active tab index are untouched;
when the overlay completes, the completion handler may additionally
mutate state (e.g. a confirmed delete).  The kill switch terminates the
program even while an overlay is active. -/
theorem overlay_frame_condition (a : App) (o : Overlay) (k : KeyMsg)
    (ho : a.overlay = some o) (hk : k ≠ .ctrlC)
    (hnd : ((o.update k).doneOf).1 = false) :
    a.update (.key k) =
      ({ a with flash := [], overlay := some (o.update k) }, []) ∧
    a.update (.key .ctrlC) = ({ a with flash := [] }, [.quit]) := by
  constructor
  · simp [App.update, App.handleKey, hk, ho, hnd]
  · simp [App.update, App.handleKey]

/-- Witness for C5's amended theorem: an 'x' keypress into the open
delete-confirmation overlay. -/
theorem overlay_frame_witness :
    (let o' := (Overlay.confirm (newConfirmOverlay
       (str "Delete A-1? This cannot be undone."))).update (.ch 'x')
     demoConfirmDelete.update (.key (.ch 'x')) =
       ({ demoConfirmDelete with flash := [], overlay := some o' }, [])) ∧
    demoConfirmDelete.update (.key .ctrlC) =
      ({ demoConfirmDelete with flash := [] }, [.quit]) :=
  overlay_frame_condition demoConfirmDelete _ (.ch 'x') (by decide)
    (by decide) (by decide)

/-- C7: pressing enter on a selected record pushes a detail view whose
content is exactly the already-known record with the loading flag set
(no loading screen replaces the list content), without touching the
tabs; and when the full-record fetch later fails, the detail view keeps
its partial content — only the loading flag is cleared — and an error
flash is set. -/
theorem detail_open_instant_and_failure_keeps_content
    (a : App) (i : Issue) (hov : a.overlay = none) (hvs : a.viewStack = [])
    (hlen : a.activeTab < a.tabs.length)
    (hfoc : a.activeTabD.quickFilter.isFocused = false)
    (hsel : a.activeTabD.selectedIssue = some i)
    (b : App) (dv : IssueDetailView) (rest : List IssueDetailView) (e : Str)
    (hb : b.viewStack = dv :: rest) :
    ((a.update (.key .enter)).1.viewStack = [newIssueDetailView i] ∧
     (newIssueDetailView i).issue = i ∧
     (newIssueDetailView i).loading = true ∧
     (a.update (.key .enter)).1.tabs = a.tabs) ∧
    (let r := b.update (.issueDetail dv.issue.key none (some e))
     r.1.viewStack = { dv with loading := false } :: rest ∧
     r.1.flash = str "Failed to load " ++ dv.issue.key ++ str ": " ++ e ∧
     r.1.flashIsErr = true ∧ r.1.tabs = b.tabs) := by
  constructor
  · obtain ⟨cp, us, ce, ch, co, tb, ai, vs, ov, oi, oa, fl, fe, cu, cpr,
      dp, cs, infl⟩ := a
    simp only at hov hvs hfoc hsel hlen
    subst hov hvs
    simp only [App.activeTabD] at hfoc hsel
    simp only [App.update, App.handleKey, App.handleTabKey,
      App.activeTabD, App.startNetwork, App.cmdFetchIssue, hfoc, hsel,
      hlen, if_true, and_false, if_false, Bool.false_eq_true]
    by_cases hcp : cp <;> simp [hcp, hsel, hlen, newIssueDetailView]
  · simp [App.update, App.onIssueDetail, hb]

/-- Witness for C7: opening A-1 from the loaded tab, then failing its
full fetch. -/
theorem detail_open_instant_witness :
    ((demoApp.update (.key .enter)).1.viewStack =
       [newIssueDetailView demoA1] ∧
     (newIssueDetailView demoA1).issue = demoA1 ∧
     (newIssueDetailView demoA1).loading = true ∧
     (demoApp.update (.key .enter)).1.tabs = demoApp.tabs) ∧
    (let b := runMsgs demoApp [.key .enter]
     let dv := newIssueDetailView demoA1
     let r := b.update (.issueDetail dv.issue.key none (some (str "boom")))
     r.1.viewStack = { dv with loading := false } :: [] ∧
     r.1.flash = str "Failed to load " ++ dv.issue.key ++ str ": " ++
       str "boom" ∧
     r.1.flashIsErr = true ∧ r.1.tabs = b.tabs) :=
  detail_open_instant_and_failure_keeps_content demoApp demoA1
    (by decide) (by decide) (by decide) (by decide) (by decide)
    (runMsgs demoApp [.key .enter]) (newIssueDetailView demoA1) [] _
    (by decide)

/-- C1, code bug: the in-flight counter is not incremented on every
outgoing command, so it can go negative.  Concretely: open A-1's detail
view from the loaded tab (counter +3), receive the three results
(counter back to 0), press esc — the view is dirty (the successful
detail fetch marked it so), and the background re-fetch is issued with
no increment; when its result arrives the counter is −1.  Likewise a
successful issue creation issues four commands (full record, comments,
children, tab reload) while adding only 2 to the counter. -/
theorem inflight_undercount_bug :
    demoEscPop.2 = [.fetchIssue (str "A-1")] ∧
    demoEscPop.1.inflight = 0 ∧
    (demoEscPop.1.update
        (.issueDetail (str "A-1") (some demoA1) none)).1.inflight = -1 ∧
    (demoEscPop.1.update
        (.issueDetail (str "A-1") (some demoA1) none)).1.inflight < 0 ∧
    (let r := demoApp.update (.issueCreated (str "N-1") none)
     r.2.length = 4 ∧ r.1.inflight = demoApp.inflight + 1) := by
  exact ⟨by decide, by decide, by decide, by decide, by decide, by decide⟩

/-- C2, code bug: immediately after a confirmed optimistic delete, the
record is gone from the tab's record list, but with a quick filter
applied the visible rows are rebuilt from the stale cached filtered
list, which still contains the deleted record — A-1 stays in the
visible rows (and the table rows) after its deletion is confirmed. -/
theorem optimistic_delete_stale_rows_bug :
    (demoDeleteFiltered.tabs.getD 0 emptyTab).issues = [demoA2, demoA3] ∧
    demoA1 ∈ (demoDeleteFiltered.tabs.getD 0 emptyTab).visibleIssues ∧
    (demoDeleteFiltered.tabs.getD 0 emptyTab).table.rows =
      issuesToRows [demoA1, demoA3] demoCols ∧
    demoDeleteFiltered.flash = str "A-1 deleted" := by
  exact ⟨by decide, by decide, by decide, by decide⟩

/-- C3: for the five field-edit actions (status transition, priority,
assignee, title, description), dispatching the overlay result mutates
no tab and no detail-view copy, and neither does an error result; on a
success message the re-fetched record replaces the copy in every tab
where its key appears (all occurrences, under per-tab key uniqueness)
and in the open detail view showing that key, and the table cursor ends
on a row whose key equals the edited key whenever that key is still
visible. -/
theorem field_edit_no_premature_mutation_and_fanout (a : App) (k : Str)
    (u : Issue)
    (hact : a.overlayAction = .transition ∨ a.overlayAction = .priority ∨
      a.overlayAction = .assignee ∨ a.overlayAction = .title ∨
      a.overlayAction = .description) :
    (∀ res : Option OvResult,
       (a.handleOverlayResult res).1.tabs = a.tabs ∧
       (a.handleOverlayResult res).1.viewStack = a.viewStack) ∧
    (∀ e : Str,
       (a.update (.issueUpdated k none (some e))).1.tabs = a.tabs ∧
       (a.update (.issueUpdated k none (some e))).1.viewStack =
         a.viewStack) ∧
    ((a.update (.issueUpdated k (some u) none)).1.tabs =
       a.tabs.map fun t => t.updateIssue k u) ∧
    (∀ t : Tab, (t.issues.map Issue.key).Nodup →
       (t.updateIssue k u).issues =
         t.issues.map fun i => if i.key = k then u else i) ∧
    (∀ t : Tab, (∃ x ∈ t.issues, x.key = k) →
       (∃ x ∈ (t.updateIssue k u).visibleIssues, x.key = k) →
       ((t.updateIssue k u).visibleIssues.getD
           (t.updateIssue k u).table.cursor blankIssue).key = k) ∧
    (∀ dv rest, a.viewStack = dv :: rest → dv.issue.key = k →
       (a.update (.issueUpdated k (some u) none)).1.viewStack =
         dv.updateIssue u :: rest) := by
  refine ⟨?_, ?_, ?_, ?_, ?_, ?_⟩
  · intro res
    rcases res with _ | r
    · rcases hact with h | h | h | h | h <;>
        simp [App.handleOverlayResult, h]
    · rcases r with it | s | _ <;> rcases hact with h | h | h | h | h <;>
        simp [App.handleOverlayResult, h]
  · intro e
    simp [App.update, App.onIssueUpdated]
  · simp [App.update, App.onIssueUpdated, App.applyIssueUpdate]
  · intro t hnodup
    unfold Tab.updateIssue
    by_cases hany : (t.issues.any fun i => decide (i.key = k)) = true
    · rw [if_pos hany, applyFilterKeepCursor_issues]
      exact replaceFirstByKey_eq_map hnodup
    · rw [if_neg hany]
      have hnk : k ∉ t.issues.map Issue.key := by
        intro hmem
        obtain ⟨x, hx, hxk⟩ := List.mem_map.mp hmem
        exact hany (anyKey_iff.mpr ⟨x, hx, hxk⟩)
      exact (map_replace_eq_self hnk).symm
  · intro t hpresent hvisible
    have hany := anyKey_iff.mpr hpresent
    unfold Tab.updateIssue at hvisible ⊢
    rw [if_pos hany] at hvisible ⊢
    exact applyFilterKeepCursor_cursor_key _ k
      (by rwa [applyFilterKeepCursor_visibleIssues] at hvisible)
  · intro dv rest hvs hkey
    simp [App.update, App.onIssueUpdated, App.applyIssueUpdate, hvs, hkey]

/-- Witness for C3: a title edit of A-1 on the loaded demo app. -/
theorem field_edit_fanout_witness :
    (let a : App :=
       { demoApp with overlayAction := .title, overlayIssue := str "A-1" }
     let k : Str := str "A-1"
     let u : Issue := demoIssue (str "A-1") (str "Fix login v2")
     (∀ res : Option OvResult,
        (a.handleOverlayResult res).1.tabs = a.tabs ∧
        (a.handleOverlayResult res).1.viewStack = a.viewStack) ∧
     (∀ e : Str,
        (a.update (.issueUpdated k none (some e))).1.tabs = a.tabs ∧
        (a.update (.issueUpdated k none (some e))).1.viewStack =
          a.viewStack) ∧
     ((a.update (.issueUpdated k (some u) none)).1.tabs =
        a.tabs.map fun t => t.updateIssue k u) ∧
     (∀ t : Tab, (t.issues.map Issue.key).Nodup →
        (t.updateIssue k u).issues =
          t.issues.map fun i => if i.key = k then u else i) ∧
     (∀ t : Tab, (∃ x ∈ t.issues, x.key = k) →
        (∃ x ∈ (t.updateIssue k u).visibleIssues, x.key = k) →
        ((t.updateIssue k u).visibleIssues.getD
            (t.updateIssue k u).table.cursor blankIssue).key = k) ∧
     (∀ dv rest, a.viewStack = dv :: rest → dv.issue.key = k →
        (a.update (.issueUpdated k (some u) none)).1.viewStack =
          dv.updateIssue u :: rest)) :=
  field_edit_no_premature_mutation_and_fanout
    { demoApp with overlayAction := .title, overlayIssue := str "A-1" }
    (str "A-1") (demoIssue (str "A-1") (str "Fix login v2")) (by decide)

end JiraTui
